import Mathlib

/-!
# Verification of `llms/mlx_lm/launch_distributed.py`

A shallow embedding of the MPI launch helper: command-line configuration
(`Args`), host resolution (`parse_hosts`), the sequential ssh reachability
check (`check_connection`), the `which mpirun` locator (`get_mpirun`), the
membership (`--hostfile`) temp-file writing loop, the launcher argument
assembly, and the `main` pipeline including the scoped lifetime of the
temporary hostfile (`NamedTemporaryFile` used as a context manager).

Python-level behaviours that matter to the claims are modelled explicitly:
* Python string helpers (`str.split(",")`, file line iteration, `str.strip()`)
  are re-implemented over `List Char` so they compute in the kernel;
* `NamedTemporaryFile()` opens its file in the default mode `w+b` (binary),
  so `file.write` applied to a `str` raises `TypeError`;
* the name `env` is free (unbound) in `main`, so reaching the
  `for e in env:` loop raises `NameError`;
* exceptions are modelled by `Except Err`, where `Err` records the exception
  identity (and the host carried by a reachability failure).
-/

/-- The parsed command-line configuration (the argparse surface of the
script): `--hosts`, `--hostfile`, repeatable `--env` (collected into a list),
`--connections-per-peer` (default 4), the two skip flags, and the positional
command tokens (argparse `nargs="+"` guarantees at least one at the CLI). -/
structure Args where
  hosts : Option String
  hostfile : Option String
  env : List String
  connections_per_peer : Int
  skip_ssh_check : Bool
  skip_python_path : Bool
  cmd : List String

/-- The exception raised by a code path of the script.
`configError` is the `ValueError` of `parse_hosts`; `unreachableHost h` the
`ValueError` of `check_connection`, carrying the offending host `h`;
`mpirunNotFound` the `ValueError` of `get_mpirun`; `nameError n` a Python
`NameError` on the unbound name `n`; `typeError m` a Python `TypeError`;
`indexError` the `IndexError` of `list.pop(0)` on an empty list. -/
inductive Err where
  | configError
  | unreachableHost (host : String)
  | mpirunNotFound
  | nameError (n : String)
  | typeError (m : String)
  | indexError
deriving Repr, DecidableEq

/-- Split a character list at every occurrence of `c`, keeping empty pieces,
like Python `str.split(sep)` for a one-character separator. -/
def splitChar (c : Char) : List Char → List (List Char)
  | [] => [[]]
  | a :: rest =>
    let r := splitChar c rest
    if a = c then [] :: r
    else
      match r with
      | [] => [[a]]
      | g :: gs => (a :: g) :: gs

/-- Python `s.split(sep)` for a one-character separator `c`:
`"a,b".split(",") = ["a","b"]`, `"".split(",") = [""]`. -/
def pySplit (c : Char) (s : String) : List String :=
  (splitChar c s.toList).map String.mk

/-- The lines produced by iterating over a Python text-mode file whose
content is `s`: each line keeps its trailing `"\n"`; a final fragment
without a newline is a line too; an empty file yields no lines. -/
def pyLines (s : String) : List String :=
  let parts := pySplit '\n' s
  let init := (parts.dropLast).map (fun p => p ++ "\n")
  let last := parts.getLastD ""
  if last = "" then init else init ++ [last]

/-- Whether `c` is one of the ASCII whitespace characters removed by Python
`str.strip()`: space, tab, newline, carriage return, vertical tab, form feed. -/
def isPySpace (c : Char) : Bool :=
  c = ' ' || c = '\t' || c = '\n' || c = '\x0d' || c = '\x0b' || c = '\x0c'

/-- Python `str.strip()`: drop leading and trailing whitespace characters. -/
def pyStrip (s : String) : String :=
  String.mk (((s.toList.dropWhile isPySpace).reverse.dropWhile isPySpace).reverse)

/-- `parse_hosts` (source lines 66-73).  `readFile` models the content of
the file at a given path (the file is assumed readable; opening it is the
only filesystem effect).  If `--hosts` was given it is split on commas, even
when `--hostfile` was given as well; otherwise, if `--hostfile` was given,
its lines are read and each is `strip()`ped; otherwise a `ValueError` is
raised. -/
def parse_hosts (args : Args) (readFile : String → String) : Except Err (List String) :=
  match args.hosts with
  | some h => .ok (pySplit ',' h)
  | none =>
    match args.hostfile with
    | some path => .ok ((pyLines (readFile path)).map pyStrip)
    | none => .error .configError

/-- The outcome of one `ssh <host> ls` probe with a 1-second timeout:
either the process timed out (`TimeoutExpired`) or it exited with a code. -/
inductive ProbeResult where
  | timeout
  | exited (code : Int)
deriving Repr, DecidableEq

/-- `check_connection` (source lines 76-87): probe each host in order with
`ssh h ls` under a 1-second timeout; on a timeout `success` becomes false;
if `not success or ret.returncode != 0` a `ValueError` naming `h` is raised
(the `or` short-circuits, so `ret` is not read after a timeout).  `probe`
models the outcome of the ssh subprocess per host. -/
def check_connection (hosts : List String) (probe : String → ProbeResult) :
    Except Err Unit :=
  match hosts with
  | [] => .ok ()
  | h :: rest =>
    match probe h with
    | .timeout => .error (.unreachableHost h)
    | .exited code =>
      if code ≠ 0 then .error (.unreachableHost h)
      else check_connection rest probe

/-- The outcome of the `which mpirun` subprocess: its exit code and its
captured standard output (raw, including any trailing newline; the model
uses `String` for the `bytes` value since no byte-level operation is
performed on it). -/
structure RunResult where
  returncode : Int
  stdout : String
deriving Repr, DecidableEq

/-- `get_mpirun` (source lines 90-96): run `which mpirun` with captured
output; raise a `ValueError` when its exit code is nonzero; otherwise return
`ret.stdout` unmodified (no strip, no decode). -/
def get_mpirun (which_mpirun : RunResult) : Except Err String :=
  if which_mpirun.returncode ≠ 0 then .error .mpirunNotFound
  else .ok which_mpirun.stdout

/-- A Python value handed to `file.write`: either a `str` or a `bytes`. -/
inductive PyVal where
  | pyStr (s : String)
  | pyBytes (b : String)
deriving Repr, DecidableEq

/-- The handle returned by `NamedTemporaryFile()` (source line 116), which
opens the file in its default mode `w+b` (binary): its generated `name` and
the bytes written so far. -/
structure BinFile where
  name : String
  content : String
deriving Repr, DecidableEq

/-- A write to the binary-mode temp file.  Writing a `str` to a file opened
in mode `w+b` raises `TypeError`; writing `bytes` appends them. -/
def BinFile.write (f : BinFile) (v : PyVal) : Except Err BinFile :=
  match v with
  | .pyStr _ => .error (.typeError "a bytes-like object is required, not str")
  | .pyBytes b => .ok { f with content := f.content ++ b }

/-- The hostfile-writing loop of `main` (source lines 117-118):
`for h in hosts: hostfile.write(f"{h} slots=1\n")` — each iteration hands
the `str` built by the f-string to the binary-mode file's `write`. -/
def writeMembership (f : BinFile) (hosts : List String) : Except Err BinFile :=
  match hosts with
  | [] => .ok f
  | h :: rest => do
    let f2 ← f.write (.pyStr (h ++ " slots=1\n"))
    writeMembership f2 rest

/-- The `mpiargs` list built at source lines 121-124, as written: two
tokens `-x e` per element of `env`, then `--mca btl_tcp_links
str(connections_per_peer)`.  `env` is a parameter here because the name
`env` is unbound in `main` (the loop raises `NameError` there); this is the
expression those lines denote for a given value of `env`. -/
def mpiargsOf (env : List String) (connections_per_peer : Int) : List String :=
  (env.flatMap (fun e => ["-x", e])) ++
    ["--mca", "btl_tcp_links", toString connections_per_peer]

/-- The `run_args` list literal of source lines 126-134:
`[mpirun, *mpiargs, "--hostfile", hostfile.name, "--", executable, *cmd]`. -/
def run_args_of (mpirun : String) (mpiargs : List String) (hostfileName : String)
    (executable : String) (cmd : List String) : List String :=
  [mpirun] ++ mpiargs ++ ["--hostfile", hostfileName, "--", executable] ++ cmd

/-- The executable substitution of source lines 111-113: after
`executable = cmd.pop(0)`, the token is replaced by `sys.executable` (the
absolute path of the running interpreter) exactly when it equals
`"python"`.  Note: `args.skip_python_path` is not consulted by these lines. -/
def substitute_executable (executable : String) (sys_executable : String) : String :=
  if executable = "python" then sys_executable else executable

/-- The external collaborators of one run of `main`: the filesystem read
used for `--hostfile`, the per-host ssh probe, the result of `which mpirun`,
the value of `sys.executable`, and the name the OS assigns to the
`NamedTemporaryFile`. -/
structure World where
  readFile : String → String
  probe : String → ProbeResult
  which_mpirun : RunResult
  sys_executable : String
  tmpname : String

/-- The observable outcome of one run of `main`: the result (`ok run_args`
means control reached `os.execv(run_args.pop(0), run_args)`, i.e. the
assembled vector is handed to process replacement; `error e` means the
exception `e` escapes `main`), whether the `NamedTemporaryFile` was ever
created, and whether its file still exists on disk after `main`'s frame is
gone (the `with` block closes — and thereby deletes — the temp file whenever
the block is exited by an exception). -/
structure MainOutcome where
  result : Except Err (List String)
  fileCreated : Bool
  fileExistsAfter : Bool
deriving Repr

/-- The body of the `with NamedTemporaryFile() as hostfile:` block (source
lines 116-136) up to the `os.execv` call: write the membership lines, flush
(a no-op in the model), run `for e in env` — which raises `NameError`
because `env` is unbound in `main` — and, were a value of `env` available,
build `mpiargs` and `run_args`.  (The `print` of line 135 would also raise
`TypeError` — `"".join` over a list whose head is `bytes` — but it is
display-only and unreachable behind the `NameError`.) -/
def withBlock (w : World) (hosts : List String) (connections_per_peer : Int)
    (executable : String) (cmdRest : List String) (mpirun : String) :
    Except Err (List String) := do
  let f ← writeMembership (BinFile.mk w.tmpname "") hosts
  let env ← (Except.error (Err.nameError "env") : Except Err (List String))
  Except.ok (run_args_of mpirun (mpiargsOf env connections_per_peer) f.name
    executable cmdRest)

/-- `main` (source lines 99-136), under parsed arguments `args` and
collaborators `w`: resolve hosts; unless `--skip-ssh-check`, probe each
host; locate `mpirun`; pop the first command token and substitute `python`;
then enter the `with NamedTemporaryFile()` block.  An exception escaping the
block still triggers the context manager's close-and-delete, so
`fileExistsAfter` is false on every error path; `ok` means control reached
`os.execv` (the process image is replaced and the temp file is never
deleted by this process).  (Named `launch_main` because a bare `main` must
be an `IO` entry point in Lean.) -/
def launch_main (args : Args) (w : World) : MainOutcome :=
  match parse_hosts args w.readFile with
  | .error e => ⟨.error e, false, false⟩
  | .ok hosts =>
    match if args.skip_ssh_check then .ok () else check_connection hosts w.probe with
    | .error e => ⟨.error e, false, false⟩
    | .ok () =>
      match get_mpirun w.which_mpirun with
      | .error e => ⟨.error e, false, false⟩
      | .ok mpirun =>
        match args.cmd with
        | [] => ⟨.error .indexError, false, false⟩
        | executable :: cmdRest =>
          match withBlock w hosts args.connections_per_peer
              (substitute_executable executable w.sys_executable) cmdRest mpirun with
          | .error e => ⟨.error e, true, false⟩
          | .ok run_args => ⟨.ok run_args, true, true⟩

/-! ## Helper lemmas -/

/-- Success of the sequential ssh check is exactly: every host's probe ran
to completion within the timeout and exited 0. -/
theorem check_connection_ok_iff (hosts : List String) (probe : String → ProbeResult) :
    check_connection hosts probe = .ok () ↔ ∀ h ∈ hosts, probe h = .exited 0 := by
  induction hosts with
  | nil => simp [check_connection]
  | cons h t ih =>
    simp only [check_connection]
    cases hp : probe h with
    | timeout => simp [hp]
    | exited c =>
      by_cases hc : c = 0
      · subst hc; simp [hp, ih]
      · simp [hp, hc]

/-- When every host strictly before position `i` probes to exit 0 and the
host at `i` does not, the check fails naming exactly the host at `i`. -/
theorem check_connection_first_fail (hosts : List String) (probe : String → ProbeResult)
    (i : Nat) (hi : i < hosts.length)
    (hprev : ∀ h ∈ hosts.take i, probe h = .exited 0)
    (hfail : probe (hosts.get ⟨i, hi⟩) ≠ .exited 0) :
    check_connection hosts probe = .error (.unreachableHost (hosts.get ⟨i, hi⟩)) := by
  induction hosts generalizing i with
  | nil => exact absurd hi (by simp)
  | cons h t ih =>
    cases i with
    | zero =>
      simp only [List.get] at hfail ⊢
      simp only [check_connection]
      cases hp : probe h with
      | timeout => rfl
      | exited c =>
        rw [hp] at hfail
        have hc : c ≠ 0 := fun hc0 => hfail (by rw [hc0])
        simp [hc]
    | succ n =>
      have h0 : probe h = .exited 0 := hprev h (by simp [List.take])
      have hn : n < t.length := Nat.lt_of_succ_lt_succ hi
      simp only [check_connection, h0]
      simp only [ne_eq, not_true_eq_false, if_false]
      exact ih n hn (fun x hx => hprev x (by simp [List.take, hx])) hfail

/-- Stripping is unaffected by a trailing newline: `pyStrip` removes the
line terminator (along with any other trailing whitespace). -/
theorem pyStrip_append_newline (s : String) : pyStrip (s ++ "\n") = pyStrip s := by
  unfold pyStrip
  have hl : (s ++ "\n").toList = s.toList ++ ['\n'] := by
    simp [String.toList, String.data_append]
  rw [hl, List.dropWhile_append]
  by_cases hd : (s.toList.dropWhile isPySpace).isEmpty
  · rw [if_pos hd]
    rw [List.isEmpty_iff] at hd
    rw [hd]
    rfl
  · rw [if_neg hd]
    rw [List.reverse_append]
    have hstep :
        List.dropWhile isPySpace
            (['\n'].reverse ++ (s.toList.dropWhile isPySpace).reverse)
          = List.dropWhile isPySpace ((s.toList.dropWhile isPySpace).reverse) := by
      simp [List.dropWhile_cons, isPySpace]
    rw [hstep]

/-- `fileExistsAfter` is true exactly on the path that reaches `os.execv`:
the `with` block's context manager deletes the temp file whenever the block
is exited by an exception. -/
theorem launch_main_exists_iff_ok (args : Args) (w : World) :
    (launch_main args w).fileExistsAfter = true
      ↔ ∃ ra, (launch_main args w).result = .ok ra := by
  unfold launch_main
  (repeat' split) <;> simp

/-! ## Claim theorems -/

/-- C1.  The claim is half right and half wrong on the code: when the first
command token is `"python"` the substitution with `sys.executable` does
happen (first conjunct), but it happens unconditionally — `main` never reads
`args.skip_python_path`, so its outcome is identical for every value of that
flag (second conjunct), contradicting the claim (and the flag's own help
text) that setting it leaves `"python"` unchanged. -/
theorem C1_skip_python_path_ignored :
    substitute_executable "python" "/opt/venv/bin/python3.11" = "/opt/venv/bin/python3.11"
    ∧ ∀ (args : Args) (w : World) (b : Bool),
        launch_main args w = launch_main { args with skip_python_path := b } w :=
  ⟨rfl, fun _ _ _ => rfl⟩

/-- C2.  The assembled vector never contains the `-x NAME=VALUE` pairs: the
loop at line 122 iterates the unbound name `env` (not `args.env`), so
`main`'s outcome is identical for every value of `args.env` (first
conjunct), and a run that reaches the loop — here: an empty hostfile, so the
host list is empty and the binary-mode write loop body never executes —
dies with `NameError` on `env` before any flag pair is emitted (second
conjunct). -/
theorem C2_env_is_unbound :
    (∀ (args : Args) (w : World) (l : List String),
        launch_main args w = launch_main { args with env := l } w)
    ∧ (launch_main
        ⟨none, some "hostfile.txt", ["MY_ENV_VAR=1"], 4, false, false, ["echo", "hi"]⟩
        ⟨fun _ => "", fun _ => .exited 0, ⟨0, "/usr/bin/mpirun\n"⟩,
          "/usr/bin/python3", "/tmp/tmpabc123"⟩).result
      = .error (.nameError "env") :=
  ⟨fun _ _ _ => rfl, rfl⟩

/-- C3, counterexample.  The claim says resolution fails when both inline
hosts and a hostfile are supplied; on the code, `args.hosts` wins and a host
list is returned: with `--hosts a --hostfile f` the result is `ok ["a"]`,
not a configuration error. -/
theorem C3_both_sources_counterexample :
    parse_hosts ⟨some "a", some "f", [], 4, false, false, ["x"]⟩ (fun _ => "")
      = .ok ["a"] :=
  rfl

/-- C3, amended.  Host resolution fails with the configuration error exactly
when NEITHER inline hosts nor a hostfile path is supplied; in every other
case (including both supplied, where inline hosts take precedence) it
returns a host list.  (The hostfile, when consulted, is assumed readable:
`readFile` models its content.) -/
theorem C3_parse_hosts_error_iff (args : Args) (readFile : String → String) :
    (∃ e, parse_hosts args readFile = .error e)
      ↔ args.hosts = none ∧ args.hostfile = none := by
  cases h1 : args.hosts <;> cases h2 : args.hostfile <;>
    simp [parse_hosts, h1, h2]

/-- C4.  The reachability check succeeds if and only if every host's probe
completes within the 1-second timeout with exit code 0 (first conjunct); and
whenever the hosts before position `i` all probe clean and the host at `i`
does not — whether by timeout or by nonzero exit, both being
`≠ .exited 0` — the error names exactly the host at position `i`, i.e. the
first failing host in list order (second conjunct). -/
theorem C4_reachability (hosts : List String) (probe : String → ProbeResult) :
    (check_connection hosts probe = .ok () ↔ ∀ h ∈ hosts, probe h = .exited 0)
    ∧ (∀ i (hi : i < hosts.length),
        (∀ h ∈ hosts.take i, probe h = .exited 0) →
        probe (hosts.get ⟨i, hi⟩) ≠ .exited 0 →
        check_connection hosts probe = .error (.unreachableHost (hosts.get ⟨i, hi⟩))) :=
  ⟨check_connection_ok_iff hosts probe,
   fun i hi hprev hfail => check_connection_first_fail hosts probe i hi hprev hfail⟩

/-- A concrete probe for the C4 witness: `"good"` answers promptly with exit
0, `"slow"` times out, every other host exits 1. -/
def probeC4 : String → ProbeResult := fun h =>
  if h = "good" then .exited 0 else if h = "slow" then .timeout else .exited 1

/-- C4 witness: on `["good","slow","bad"]` the check fails naming `"slow"`,
the first failing host (a timeout), not the later `"bad"` (a nonzero exit). -/
theorem C4_reachability_witness :
    check_connection ["good", "slow", "bad"] probeC4
      = .error (.unreachableHost "slow") :=
  (C4_reachability ["good", "slow", "bad"] probeC4).2 1 (by decide)
    (by decide) (by decide)

/-- C5.  The membership file is never written: `NamedTemporaryFile()` opens
its file in the default binary mode `w+b`, so the very first
`hostfile.write(f"{h} slots=1\n")` — a `str` argument — raises `TypeError`,
and for the host list `["h1","h2"]` the loop fails with no bytes written
instead of producing the content `"h1 slots=1\nh2 slots=1\n"`. -/
theorem C5_membership_write_raises :
    writeMembership (BinFile.mk "/tmp/tmphostfile" "") ["h1", "h2"]
      = .error (.typeError "a bytes-like object is required, not str") :=
  rfl

/-- C6.  On the claim's own scenario — hosts `m1,m2`, no `--env`,
connections 4, command `python train.py --epochs 3`, skip flags unset, every
ssh probe succeeding, `which mpirun` succeeding — `main` raises `TypeError`
at the first hostfile write (and would next hit the `NameError` on `env`),
so no argument vector is ever assembled or handed to `os.execv`. -/
theorem C6_scenario_never_assembles :
    (launch_main
        ⟨some "m1,m2", none, [], 4, false, false,
          ["python", "train.py", "--epochs", "3"]⟩
        ⟨fun _ => "", fun _ => .exited 0, ⟨0, "/usr/bin/mpirun\n"⟩,
          "/usr/local/bin/python3", "/tmp/tmpdeadbeef"⟩).result
      = .error (.typeError "a bytes-like object is required, not str") :=
  rfl

/-- C7, counterexample.  The file `" h1 \n\n"` has exactly one non-blank
line, yet resolution returns TWO identifiers — blank lines are not dropped,
each becoming an empty host identifier — and the first identifier is
`"h1"`, not the terminator-stripped line `" h1 "`: `strip()` removes all
leading and trailing whitespace, not only the line terminator. -/
theorem C7_blank_lines_counterexample :
    parse_hosts ⟨none, some "hosts.txt", [], 4, false, false, ["x"]⟩
        (fun _ => " h1 \n\n")
      = .ok ["h1", ""]
    ∧ ((pyLines " h1 \n\n").filter (fun l => pyStrip l != "")).length = 1 :=
  ⟨rfl, rfl⟩

/-- C7, amended.  Host resolution from a file returns one identifier per
line of the file — blank lines included — in file order, each line stripped
of ALL leading and trailing whitespace (`str.strip()`); in particular the
line terminator is removed (second conjunct). -/
theorem C7_file_lines_stripped (args : Args) (readFile : String → String)
    (p : String) (h1 : args.hosts = none) (h2 : args.hostfile = some p) :
    parse_hosts args readFile = .ok ((pyLines (readFile p)).map pyStrip)
    ∧ ∀ s, pyStrip (s ++ "\n") = pyStrip s := by
  constructor
  · simp [parse_hosts, h1, h2]
  · exact pyStrip_append_newline

/-- C7 witness: a two-line hostfile resolves to its two identifiers. -/
theorem C7_file_lines_stripped_witness :
    parse_hosts ⟨none, some "hf.txt", [], 4, false, false, ["x"]⟩
      (fun _ => "node-a\nnode-b\n") = .ok ["node-a", "node-b"] := by
  have h := (C7_file_lines_stripped
    ⟨none, some "hf.txt", [], 4, false, false, ["x"]⟩
    (fun _ => "node-a\nnode-b\n") "hf.txt" rfl rfl).1
  rw [h]
  rfl

/-- C8.  On every failure path — every run of `main` whose result is an
escaping exception — the membership temp file does not exist on disk
afterwards: it was either never created (failures before the `with` block)
or deleted by the context manager on block exit. -/
theorem C8_cleanup_on_failure (args : Args) (w : World) (e : Err)
    (h : (launch_main args w).result = .error e) :
    (launch_main args w).fileExistsAfter = false := by
  by_contra hc
  have ht : (launch_main args w).fileExistsAfter = true := by
    revert hc; cases (launch_main args w).fileExistsAfter <;> simp
  obtain ⟨ra, hra⟩ := (launch_main_exists_iff_ok args w).1 ht
  rw [h] at hra
  exact Except.noConfusion hra

/-- C8 witness: a run that creates the temp file and then fails (here with
the `TypeError` of the first membership write) leaves no file behind. -/
theorem C8_cleanup_on_failure_witness :
    (launch_main ⟨some "h1", none, [], 4, true, false, ["worker.sh"]⟩
      ⟨fun _ => "", fun _ => .exited 0, ⟨0, "/usr/bin/mpirun\n"⟩,
        "/usr/bin/python3", "/tmp/tmp8"⟩).fileExistsAfter = false :=
  C8_cleanup_on_failure _ _
    (.typeError "a bytes-like object is required, not str") rfl

/-- C9.  When `which mpirun` fails, the launcher-not-found error precedes
membership-file creation: the temp file is never created (first conjunct),
and whenever host resolution and the (possibly skipped) reachability check
would have passed, the run fails precisely with the launcher-not-found
error (second conjunct). -/
theorem C9_locator_before_membership (args : Args) (w : World)
    (h : w.which_mpirun.returncode ≠ 0) :
    (launch_main args w).fileCreated = false
    ∧ ∀ hosts, parse_hosts args w.readFile = .ok hosts →
        (args.skip_ssh_check = true ∨ check_connection hosts w.probe = .ok ()) →
        (launch_main args w).result = .error .mpirunNotFound := by
  have hm : get_mpirun w.which_mpirun = .error .mpirunNotFound := by
    unfold get_mpirun
    rw [if_pos h]
  constructor
  · unfold launch_main
    (repeat' split) <;> simp_all
  · intro hosts hp hssh
    have hck : (if args.skip_ssh_check = true then Except.ok ()
          else check_connection hosts w.probe)
        = (Except.ok () : Except Err Unit) := by
      rcases hssh with hs | hs
      · rw [if_pos hs]
      · cases hb : args.skip_ssh_check <;> simp [hs]
    simp only [launch_main, hp, hck, hm]

/-- C9 witness: with `which mpirun` exiting 1, a run with valid hosts never
creates the temp file. -/
theorem C9_locator_before_membership_witness :
    (launch_main ⟨some "h1", none, [], 4, true, false, ["worker.sh"]⟩
      ⟨fun _ => "", fun _ => .exited 0, ⟨1, ""⟩,
        "/usr/bin/python3", "/tmp/tmp9"⟩).fileCreated = false :=
  (C9_locator_before_membership _ _ (by decide)).1

/-- C10.  The launcher path is the raw captured standard output of
`which mpirun`, returned unmodified — no strip, no decode — so it keeps its
trailing newline (first and third conjuncts); and the `run_args` literal
places exactly that value at position 0, which `run_args.pop(0)` then hands
to `os.execv` as the replacement target (second conjunct). -/
theorem C10_raw_which_stdout :
    (∀ r : RunResult, r.returncode = 0 → get_mpirun r = .ok r.stdout)
    ∧ (∀ mpirun mpiargs hfname exe cmd,
        (run_args_of mpirun mpiargs hfname exe cmd).head? = some mpirun)
    ∧ get_mpirun ⟨0, "/opt/homebrew/bin/mpirun\n"⟩
        = .ok "/opt/homebrew/bin/mpirun\n" := by
  refine ⟨fun r hr => ?_, fun a b c d e => rfl, rfl⟩
  simp [get_mpirun, hr]

/-- C10 witness: a successful `which` with newline-terminated output is
passed through byte-for-byte. -/
theorem C10_raw_which_stdout_witness :
    get_mpirun ⟨0, "/usr/bin/mpirun\n"⟩ = .ok "/usr/bin/mpirun\n" :=
  C10_raw_which_stdout.1 ⟨0, "/usr/bin/mpirun\n"⟩ rfl
